import Mathlib

/-!
Verification of the `ConnectionHandle` network state machine from
`src/network/connection_handle.cpp` (noisepage/terrier).

The development shallowly embeds:
- the `ConnState` / `Transition` enums and the transition table
  (`ConnectionHandleStateMachineTransition` and
  `ConnectionHandle::StateMachine::Delta`);
- the `ConnectionHandle` action methods (`TryRead`, `TryWrite`, `Process`,
  `GetResult`, `TryCloseConnection`) and the `Wait*` helpers, with the
  external collaborators (`NetworkIoWrapper`, `ProtocolInterpreter`,
  metrics store) modelled as oracles supplying the outcome of each
  external call;
- the dispatch loop `ConnectionHandle::StateMachine::Accept`, the event
  entry point `HandleEvent`, the constructor and `ResetForReuse`.

C++ exceptions are modelled explicitly: an action either returns a
`Transition`, or raises a `NetworkProcessException` (the only exception
type caught by the `Accept` loop); an undefined (state, transition) pair
makes `Delta` fail with the `std::runtime_error("Undefined transition!")`,
which `Accept` does not catch.
-/

deriving instance DecidableEq for Except

namespace Terrier

/-- `ConnState` from network_defs.h: the connection's coarse state. -/
inductive ConnState
  | READ
  | PROCESS
  | WRITE
  | CLOSING
  deriving DecidableEq, Repr

/-- `Transition` from network_defs.h: the state machine's event alphabet,
also the return type of every action. -/
inductive Transition
  | NONE
  | NEED_READ
  | NEED_READ_TIMEOUT
  | NEED_WRITE
  | NEED_RESULT
  | PROCEED
  | TERMINATE
  | WAKEUP
  deriving DecidableEq, Repr

/-- The action functions a table entry can reference (the second
component of `ConnectionHandle::StateMachine::TransitionResult`).
Each constructor names one of the static methods of
`ConnectionHandleStateMachineTransition`. -/
inductive Action
  | WaitForRead
  | WaitForWrite
  | WaitForReadWithTimeout
  | WaitForTerrier
  | GetResult
  | Process
  | TryRead
  | TryWrite
  | TryCloseConnection
  deriving DecidableEq, Repr

/-- `ConnectionHandle::StateMachine::TransitionResult`:
(next state, action to invoke). -/
abbrev TransitionResult := ConnState × Action

/-- `ConnectionHandleStateMachineTransition::TransitionForRead`.
The `default:` branch throws `std::runtime_error("Undefined transition!")`,
modelled as `Except.error`. -/
def TransitionForRead : Transition → Except String TransitionResult
  | .NEED_READ         => .ok (.READ, .WaitForRead)
  | .NEED_READ_TIMEOUT => .ok (.READ, .WaitForReadWithTimeout)
  | .NEED_WRITE        => .ok (.READ, .WaitForWrite)
  | .PROCEED           => .ok (.PROCESS, .Process)
  | .TERMINATE         => .ok (.CLOSING, .TryCloseConnection)
  | .WAKEUP            => .ok (.READ, .TryRead)
  | _                  => .error "Undefined transition!"

/-- `ConnectionHandleStateMachineTransition::TransitionForProcess`. -/
def TransitionForProcess : Transition → Except String TransitionResult
  | .NEED_READ         => .ok (.READ, .TryRead)
  | .NEED_READ_TIMEOUT => .ok (.READ, .WaitForReadWithTimeout)
  | .NEED_RESULT       => .ok (.PROCESS, .WaitForTerrier)
  | .PROCEED           => .ok (.WRITE, .TryWrite)
  | .TERMINATE         => .ok (.CLOSING, .TryCloseConnection)
  | .WAKEUP            => .ok (.PROCESS, .GetResult)
  | _                  => .error "Undefined transition!"

/-- `ConnectionHandleStateMachineTransition::TransitionForWrite`. -/
def TransitionForWrite : Transition → Except String TransitionResult
  | .NEED_READ         => .ok (.WRITE, .WaitForRead)
  | .NEED_WRITE        => .ok (.WRITE, .WaitForWrite)
  | .PROCEED           => .ok (.PROCESS, .Process)
  | .TERMINATE         => .ok (.CLOSING, .TryCloseConnection)
  | .WAKEUP            => .ok (.WRITE, .TryWrite)
  | _                  => .error "Undefined transition!"

/-- `ConnectionHandleStateMachineTransition::TransitionForClosing`. -/
def TransitionForClosing : Transition → Except String TransitionResult
  | .NEED_READ         => .ok (.WRITE, .WaitForRead)
  | .NEED_WRITE        => .ok (.WRITE, .WaitForWrite)
  | .TERMINATE         => .ok (.CLOSING, .TryCloseConnection)
  | .WAKEUP            => .ok (.CLOSING, .TryCloseConnection)
  | _                  => .error "Undefined transition!"

/-- `ConnectionHandle::StateMachine::Delta`: dispatch on the current state. -/
def Delta (state : ConnState) (transition : Transition) :
    Except String TransitionResult :=
  match state with
  | .READ    => TransitionForRead transition
  | .PROCESS => TransitionForProcess transition
  | .WRITE   => TransitionForWrite transition
  | .CLOSING => TransitionForClosing transition

/-! libevent event flags, as used by `connection_handle.cpp`. -/

def EV_TIMEOUT : Nat := 0x01
def EV_READ : Nat := 0x02
def EV_WRITE : Nat := 0x04
def EV_PERSIST : Nat := 0x10

/-- Modelled from the spec: the idle-read timeout constant `READ_TIMEOUT`
(declared in a network header that is not part of the excerpt); §4.2 only
requires that `WaitForReadWithTimeout` arms *some* idle timeout, so the
concrete number of seconds is immaterial to every claim. -/
def READ_TIMEOUT : Nat := 20

/-- `NetworkMetricRawData::NetworkOperatingUnit`
(metrics/network_metric.h): tag of a feature record. -/
inductive NetworkOperatingUnit
  | INVALID
  | READ
  | WRITE
  deriving DecidableEq, Repr

/-- Modelled from the spec: `network::network_features` (declared in
network_defs.h, not part of the excerpt); per §6 it is a fixed-field
record {operating-unit tag, byte count, per-protocol counters}. Only the
fields `connection_handle.cpp` touches are modelled:
`operating_unit_`, `bytes_`, `num_queries_`. -/
structure NetworkFeatures where
  operatingUnit : NetworkOperatingUnit
  bytes : Nat
  numQueries : Nat
  deriving DecidableEq, Repr

/-- Modelled from the spec: `ConnectionContext` (header not part of the
excerpt); per §3 it holds a stable connection identifier and the mutable
feature-counter records used by the sampling hook. -/
structure ConnectionContext where
  connectionId : Nat
  readFeatures : NetworkFeatures
  writeFeatures : NetworkFeatures
  deriving DecidableEq, Repr

/-- Modelled from the spec: the freshly-constructed / `Reset()` content of
a `ConnectionContext` — §2.26: reuse "clears the context", producing state
indistinguishable from fresh construction except for connection identity. -/
def ConnectionContext.cleared : ConnectionContext :=
  { connectionId := 0
    readFeatures := ⟨.INVALID, 0, 0⟩
    writeFeatures := ⟨.INVALID, 0, 0⟩ }

/-- Modelled from the spec: the reactor-side event registry of the
`ConnectionHandlerTask` (`NotifiableTask`, not part of the excerpt).
`owned` is its set of live registrations; `freed` records every
`event_free` performed, so that a double free is visible as a repeated
entry. Per §4.2 ("a second invocation after events are already
unregistered is a no-op, not a fault") unregistering an event that is no
longer owned leaves the registry unchanged. -/
structure Reactor where
  owned : List Nat
  freed : List Nat
  deriving DecidableEq, Repr

/-- Modelled from the spec: `NotifiableTask::UnregisterEvent`. A null
handle or an event not in the registry is left alone; a live registration
is removed and freed exactly once. -/
def Reactor.unregisterEvent (r : Reactor) : Option Nat → Reactor
  | none => r
  | some e =>
    if e ∈ r.owned then { owned := r.owned.erase e, freed := r.freed ++ [e] }
    else r

/-- The handle's view of its `NetworkIoWrapper` (external per §6): the
object's identity, the socket it wraps, and how many times `Restart()`
was invoked on it. The wrapper's I/O behavior is an oracle (`Oracle`). -/
structure IoWrapperRef where
  objectId : Nat
  sockFd : Nat
  restarts : Nat
  deriving DecidableEq, Repr

/-- The state of a `ConnectionHandle` (connection_handle.h / .cpp):
the state machine's `current_state_`, the owned `NetworkIoWrapper`, the
`ConnectionHandlerTask`'s event registry, the identity of the owned
`ProtocolInterpreter`, the per-connection `context_`, the
`flush_read_features_` flag, the two event registrations, the network
event's current flags/timeout (set by `UpdateEventFlags`), whether the
network event is currently armed in the loop, and the log of feature
records emitted through the `FlushNetworkFeatures` tracepoint. -/
structure ConnectionHandle where
  currentState : ConnState
  ioWrapper : IoWrapperRef
  task : Reactor
  interpreterId : Nat
  context : ConnectionContext
  flushReadFeatures : Bool
  networkEvent : Option Nat
  workpoolEvent : Option Nat
  networkArmed : Bool
  networkEventFlags : Nat
  networkEventTimeout : Option Nat
  emitted : List NetworkFeatures
  deriving DecidableEq, Repr

/-- Outcome of one call into an external collaborator: it returns a
`Transition`, or raises a `NetworkProcessException`. -/
inductive ExtOutcome
  | ret (t : Transition)
  | npe
  deriving DecidableEq, Repr

/-- Oracle for the external collaborators (§6: IoWrapper,
ProtocolInterpreter, metrics store). Each list supplies, in order, the
outcomes of the successive calls to one external entry point; a call with
its list exhausted leaves the model `stuck` (not a program behavior —
real collaborators always return). `metricsOn` models the
`do_a_metrics_thing` condition (thread-local metrics store enabled for
NETWORK and the tracepoint semaphore active); `readBufSize` and
`writeQueueSize` model `GetReadBuffer()->Size()` and
`GetWriteQueue()->Size()`. -/
structure Oracle where
  metricsOn : Bool
  readBufSize : Nat
  writeQueueSize : Nat
  fill : List ExtOutcome
  shouldFlush : List Bool
  flushAll : List ExtOutcome
  interpProcess : List ExtOutcome
  interpGetResult : List Bool
  interpTeardown : List Bool
  closeTransport : List ExtOutcome
  deriving DecidableEq, Repr

/-- Total number of external outcomes an oracle still holds. -/
def Oracle.size (o : Oracle) : Nat :=
  o.fill.length + o.shouldFlush.length + o.flushAll.length +
  o.interpProcess.length + o.interpGetResult.length +
  o.interpTeardown.length + o.closeTransport.length

/-- Result of invoking one action method: the model ran out of oracle
outcomes (`stuck`), the method raised a `NetworkProcessException`
(`npe`, with the side effects performed before the raise), or it
returned a `Transition` (`ret`). -/
inductive InvokeRes
  | stuck
  | npe (h : ConnectionHandle) (o : Oracle)
  | ret (t : Transition) (h : ConnectionHandle) (o : Oracle)
  deriving DecidableEq, Repr

/-- `ConnectionHandle::UpdateEventFlags`: update the network event's
flags, with or without a timeout, and re-arm it. -/
def ConnectionHandle.updateEventFlags (h : ConnectionHandle)
    (flags : Nat) (timeoutSecs : Nat) : ConnectionHandle :=
  if flags &&& EV_TIMEOUT = 0 then
    { h with networkEventFlags := flags, networkEventTimeout := none,
             networkArmed := true }
  else
    { h with networkEventFlags := flags, networkEventTimeout := some timeoutSecs,
             networkArmed := true }

/-- `ConnectionHandle::StopReceivingNetworkEvent`:
`EventUtil::EventDel(network_event_)`. -/
def ConnectionHandle.stopReceivingNetworkEvent (h : ConnectionHandle) :
    ConnectionHandle :=
  { h with networkArmed := false }

/-- The "check first if we have data to flush" block shared verbatim by
`TryRead` and `TryWrite`: if `flush_read_features_` is set, emit the read
feature record when it counts exactly one query, then clear the flag and
reset the record to `{.operating_unit_ = READ}`. -/
def ConnectionHandle.flushReadFeaturesBlock (h : ConnectionHandle) :
    ConnectionHandle :=
  if h.flushReadFeatures then
    let h2 :=
      if h.context.readFeatures.numQueries = 1 then
        { h with emitted := h.emitted ++ [h.context.readFeatures] }
      else h
    { h2 with flushReadFeatures := false,
              context := { h2.context with readFeatures := ⟨.READ, 0, 0⟩ } }
  else h

/-- `ConnectionHandle::TryRead`: optionally flush the pending read
feature record, then delegate to `io_wrapper_->FillReadBuffer()`; under
the sampling hook, additionally record the read-buffer size and arm the
flush flag. -/
def ConnectionHandle.tryRead (h : ConnectionHandle) (o : Oracle) : InvokeRes :=
  let h := h.flushReadFeaturesBlock
  match o.fill with
  | [] => .stuck
  | .npe :: rest => .npe h { o with fill := rest }
  | .ret t :: rest =>
    let o := { o with fill := rest }
    if o.metricsOn then
      let h := { h with
        context := { h.context with
          readFeatures := { h.context.readFeatures with bytes := o.readBufSize } },
        flushReadFeatures := true }
      .ret t h o
    else
      .ret t h o

/-- `ConnectionHandle::TryWrite`: if `io_wrapper_->ShouldFlush()` is
false, return `PROCEED` immediately; otherwise run the read-features
flush block, then `io_wrapper_->FlushAllWrites()` (bracketed by the
sampling hook when enabled, which also records the write-queue size and
emits/resets the write feature record), returning the flush's
transition. -/
def ConnectionHandle.tryWrite (h : ConnectionHandle) (o : Oracle) : InvokeRes :=
  match o.shouldFlush with
  | [] => .stuck
  | b :: rest =>
    let o := { o with shouldFlush := rest }
    if b then
      let h := h.flushReadFeaturesBlock
      if o.metricsOn then
        let h := { h with
          context := { h.context with
            writeFeatures := { h.context.writeFeatures with bytes := o.writeQueueSize } } }
        match o.flushAll with
        | [] => .stuck
        | .npe :: rest2 => .npe h { o with flushAll := rest2 }
        | .ret t :: rest2 =>
          let o := { o with flushAll := rest2 }
          let h2 :=
            if h.context.writeFeatures.numQueries = 1 then
              { h with emitted := h.emitted ++ [h.context.writeFeatures] }
            else h
          let h3 := { h2 with
            context := { h2.context with writeFeatures := ⟨.WRITE, 0, 0⟩ } }
          .ret t h3 o
      else
        match o.flushAll with
        | [] => .stuck
        | .npe :: rest2 => .npe h { o with flushAll := rest2 }
        | .ret t :: rest2 => .ret t h { o with flushAll := rest2 }
    else
      .ret Transition.PROCEED h o

/-- `ConnectionHandle::Process`: delegate to
`protocol_interpreter_->Process(...)` and return its transition. -/
def ConnectionHandle.process (h : ConnectionHandle) (o : Oracle) : InvokeRes :=
  match o.interpProcess with
  | [] => .stuck
  | .npe :: rest => .npe h { o with interpProcess := rest }
  | .ret t :: rest => .ret t h { o with interpProcess := rest }

/-- `ConnectionHandle::GetResult`: re-arm the network event
(`EventUtil::EventAdd(network_event_, WAIT_FOREVER)`), have the
interpreter serialize the completed result, and return `PROCEED`. -/
def ConnectionHandle.getResult (h : ConnectionHandle) (o : Oracle) : InvokeRes :=
  let h := { h with networkArmed := true }
  match o.interpGetResult with
  | [] => .stuck
  | true :: rest => .npe h { o with interpGetResult := rest }
  | false :: rest => .ret Transition.PROCEED h { o with interpGetResult := rest }

/-- `ConnectionHandle::TryCloseConnection`: tear down the interpreter,
attempt `io_wrapper_->Close()`; any non-`PROCEED` close transition is
returned as is (nothing unregistered); on `PROCEED`, unregister the
network and workpool events and return `NONE`. -/
def ConnectionHandle.tryCloseConnection (h : ConnectionHandle) (o : Oracle) :
    InvokeRes :=
  match o.interpTeardown with
  | [] => .stuck
  | true :: rest => .npe h { o with interpTeardown := rest }
  | false :: rest =>
    let o := { o with interpTeardown := rest }
    match o.closeTransport with
    | [] => .stuck
    | .npe :: rest2 => .npe h { o with closeTransport := rest2 }
    | .ret close :: rest2 =>
      let o := { o with closeTransport := rest2 }
      if close ≠ Transition.PROCEED then
        .ret close h o
      else
        let h := { h with
          task := (h.task.unregisterEvent h.networkEvent).unregisterEvent
                    h.workpoolEvent }
        .ret Transition.NONE h o

/-- Invoke the action referenced by a table entry, as
`ConnectionHandleStateMachineTransition`'s static wrappers do: the
`Wait*` helpers perform their registration effect and return `NONE`; the
remaining wrappers call the corresponding `ConnectionHandle` method. -/
def invokeAction : Action → ConnectionHandle → Oracle → InvokeRes
  | .WaitForRead, h, o =>
    .ret Transition.NONE (h.updateEventFlags (EV_READ ||| EV_PERSIST) 0) o
  | .WaitForWrite, h, o =>
    .ret Transition.NONE (h.updateEventFlags (EV_WRITE ||| EV_PERSIST) 0) o
  | .WaitForReadWithTimeout, h, o =>
    .ret Transition.NONE
      (h.updateEventFlags (EV_READ ||| EV_PERSIST ||| EV_TIMEOUT) READ_TIMEOUT) o
  | .WaitForTerrier, h, o =>
    .ret Transition.NONE h.stopReceivingNetworkEvent o
  | .GetResult, h, o => h.getResult o
  | .Process, h, o => h.process o
  | .TryRead, h, o => h.tryRead o
  | .TryWrite, h, o => h.tryWrite o
  | .TryCloseConnection, h, o => h.tryCloseConnection o

/-- Observable outcome of running `Accept`: the loop exited normally
(`next == NONE`), the `std::runtime_error` from an undefined
(state, transition) pair escaped (`fatal` — the loop's catch clause only
covers `NetworkProcessException`), the oracle ran out of outcomes
(`stuck`, a model artifact), or the iteration budget ran out (`fuelOut`,
proved unreachable for a budget of `Oracle.size + 2`). -/
inductive RunRes
  | done (h : ConnectionHandle) (o : Oracle)
  | fatal (h : ConnectionHandle) (s : ConnState) (t : Transition)
  | stuck
  | fuelOut
  deriving DecidableEq, Repr

/-- One step of `Accept`: either the loop halts, or it continues with a
new configuration. -/
inductive StepRes
  | halt (r : RunRes)
  | cont (o : Oracle) (h : ConnectionHandle) (t : Transition)
  deriving DecidableEq, Repr

/-- One iteration of the `while (next != NONE)` loop in
`ConnectionHandle::StateMachine::Accept`: look up `Delta(current_state_,
next)`, assign `current_state_ = result.first` *before* invoking the
action, invoke the action, and catch a `NetworkProcessException` by
substituting `next = TERMINATE`. -/
def acceptStep (o : Oracle) (h : ConnectionHandle) (t : Transition) : StepRes :=
  if t = Transition.NONE then .halt (.done h o)
  else
    match Delta h.currentState t with
    | .error _ => .halt (.fatal h h.currentState t)
    | .ok (s, a) =>
      match invokeAction a { h with currentState := s } o with
      | .stuck => .halt .stuck
      | .npe h2 o2 => .cont o2 h2 Transition.TERMINATE
      | .ret t2 h2 o2 => .cont o2 h2 t2

/-- The `Accept` loop, iterated under an explicit fuel. -/
def acceptFuel : Nat → Oracle → ConnectionHandle → Transition → RunRes
  | 0, _, _, _ => .fuelOut
  | n + 1, o, h, t =>
    match acceptStep o h t with
    | .halt r => r
    | .cont o2 h2 t2 => acceptFuel n o2 h2 t2

/-- `ConnectionHandle::StateMachine::Accept`: run the dispatch loop; a
budget of `Oracle.size + 2` iterations is proved sufficient below. -/
def accept (o : Oracle) (h : ConnectionHandle) (t : Transition) : RunRes :=
  acceptFuel (o.size + 2) o h t

/-- The sequence of states assigned to `current_state_` by the `Accept`
loop (one entry per executed iteration). -/
def traceFuel : Nat → Oracle → ConnectionHandle → Transition → List ConnState
  | 0, _, _, _ => []
  | n + 1, o, h, t =>
    if t = Transition.NONE then []
    else
      match Delta h.currentState t with
      | .error _ => []
      | .ok (s, a) =>
        match invokeAction a { h with currentState := s } o with
        | .stuck => [s]
        | .npe h2 o2 => s :: traceFuel n o2 h2 Transition.TERMINATE
        | .ret t2 h2 o2 => s :: traceFuel n o2 h2 t2

/-- `ConnectionHandle::HandleEvent`: a timeout flag maps to `TERMINATE`,
anything else to `WAKEUP`; then `Accept` runs with that transition. -/
def ConnectionHandle.handleEvent (h : ConnectionHandle) (o : Oracle)
    (_fd : Nat) (flags : Nat) : RunRes :=
  let t :=
    if flags &&& EV_TIMEOUT ≠ 0 then Transition.TERMINATE
    else Transition.WAKEUP
  accept o h t

/-- `ConnectionHandle::ConnectionHandle(sock_fd, task, tcop,
interpreter)`: wrap the socket in a fresh `NetworkIoWrapper`
(`freshIoObject` is its identity), take ownership of the interpreter,
set the context's callback target and connection id (the socket fd).
The state machine's initial state `READ` is modelled from the spec
(§2.26 / §3: the StateMachine starts in, and reuse resets it to,
`READ`; the defaulted member initializer lives in a header outside the
excerpt). -/
def ConnectionHandle.construct (sockFd : Nat) (freshIoObject : Nat)
    (task : Reactor) (interpreterId : Nat) : ConnectionHandle :=
  { currentState := ConnState.READ
    ioWrapper := { objectId := freshIoObject, sockFd := sockFd, restarts := 0 }
    task := task
    interpreterId := interpreterId
    context := { ConnectionContext.cleared with connectionId := sockFd }
    flushReadFeatures := false
    networkEvent := none
    workpoolEvent := none
    networkArmed := false
    networkEventFlags := 0
    networkEventTimeout := none
    emitted := [] }

/-- `ConnectionHandle::ResetForReuse`: restart the same `NetworkIoWrapper`
object, adopt the new task and interpreter, reset the state machine
(`state_machine_ = ConnectionHandle::StateMachine()`, initial state
`READ`), null both event registrations, and reset the context before
assigning the new connection id. -/
def ConnectionHandle.resetForReuse (h : ConnectionHandle)
    (connectionId : Nat) (task : Reactor) (interpreterId : Nat) :
    ConnectionHandle :=
  { h with
    ioWrapper := { h.ioWrapper with restarts := h.ioWrapper.restarts + 1 }
    task := task
    interpreterId := interpreterId
    currentState := ConnState.READ
    networkEvent := none
    workpoolEvent := none
    context := { ConnectionContext.cleared with connectionId := connectionId } }

/-- The transition returned by an invocation, if any. -/
def InvokeRes.transitionOf : InvokeRes → Option Transition
  | .stuck => none
  | .npe _ _ => none
  | .ret t _ _ => some t

/-- The oracle left over by an invocation, if it did not get stuck. -/
def InvokeRes.oracleOf : InvokeRes → Option Oracle
  | .stuck => none
  | .npe _ o => some o
  | .ret _ _ o => some o

/-- The handle-independent part of an invocation's result: whether it got
stuck, raised, or returned which transition, together with the remaining
oracle. -/
def InvokeRes.sig : InvokeRes → Option (Option Transition × Oracle)
  | .stuck => none
  | .npe _ o => some (none, o)
  | .ret t _ o => some (some t, o)

/-- An empty reactor registry, for concrete evaluations. -/
def sampleReactor : Reactor := { owned := [], freed := [] }

/-- An oracle with no pending outcomes, for concrete evaluations. -/
def sampleOracle : Oracle :=
  { metricsOn := false, readBufSize := 0, writeQueueSize := 0, fill := [],
    shouldFlush := [], flushAll := [], interpProcess := [],
    interpGetResult := [], interpTeardown := [], closeTransport := [] }

/-- A freshly constructed handle on socket 5, for concrete evaluations. -/
def sampleHandle : ConnectionHandle :=
  ConnectionHandle.construct 5 100 sampleReactor 7

/-- The sample handle moved to `CLOSING`, for concrete evaluations. -/
def sampleClosingHandle : ConnectionHandle :=
  { sampleHandle with currentState := ConnState.CLOSING }

/-- The (state, transition) pairs enumerated in the §4.1 table. -/
def tablePairs : List (ConnState × Transition) :=
  [(.READ, .NEED_READ), (.READ, .NEED_READ_TIMEOUT), (.READ, .NEED_WRITE),
   (.READ, .PROCEED), (.READ, .TERMINATE), (.READ, .WAKEUP),
   (.PROCESS, .NEED_READ), (.PROCESS, .NEED_READ_TIMEOUT),
   (.PROCESS, .NEED_RESULT), (.PROCESS, .PROCEED), (.PROCESS, .TERMINATE),
   (.PROCESS, .WAKEUP),
   (.WRITE, .NEED_READ), (.WRITE, .NEED_WRITE), (.WRITE, .PROCEED),
   (.WRITE, .TERMINATE), (.WRITE, .WAKEUP),
   (.CLOSING, .NEED_READ), (.CLOSING, .NEED_WRITE), (.CLOSING, .TERMINATE),
   (.CLOSING, .WAKEUP)]

/-- Every error `Delta` can produce carries the
`"Undefined transition!"` message. -/
theorem delta_error_msg (s : ConnState) (t : Transition) (e : String)
    (h : Delta s t = .error e) : e = "Undefined transition!" := by
  cases s <;> cases t <;>
    simp [Delta, TransitionForRead, TransitionForProcess, TransitionForWrite,
      TransitionForClosing] at h <;> exact h.symm

/-- C1: For every (state, transition) pair enumerated in the §4.1 table,
`Delta` returns exactly the documented (next state, action) pair; in
particular, in `CLOSING`, `NEED_READ` and `NEED_WRITE` yield
`(WRITE, WaitForRead)` and `(WRITE, WaitForWrite)`, and both `TERMINATE`
and `WAKEUP` yield `(CLOSING, TryCloseConnection)`. -/
theorem delta_matches_spec_table :
    Delta .READ .NEED_READ = .ok (.READ, .WaitForRead) ∧
    Delta .READ .NEED_READ_TIMEOUT = .ok (.READ, .WaitForReadWithTimeout) ∧
    Delta .READ .NEED_WRITE = .ok (.READ, .WaitForWrite) ∧
    Delta .READ .PROCEED = .ok (.PROCESS, .Process) ∧
    Delta .READ .TERMINATE = .ok (.CLOSING, .TryCloseConnection) ∧
    Delta .READ .WAKEUP = .ok (.READ, .TryRead) ∧
    Delta .PROCESS .NEED_READ = .ok (.READ, .TryRead) ∧
    Delta .PROCESS .NEED_READ_TIMEOUT = .ok (.READ, .WaitForReadWithTimeout) ∧
    Delta .PROCESS .NEED_RESULT = .ok (.PROCESS, .WaitForTerrier) ∧
    Delta .PROCESS .PROCEED = .ok (.WRITE, .TryWrite) ∧
    Delta .PROCESS .TERMINATE = .ok (.CLOSING, .TryCloseConnection) ∧
    Delta .PROCESS .WAKEUP = .ok (.PROCESS, .GetResult) ∧
    Delta .WRITE .NEED_READ = .ok (.WRITE, .WaitForRead) ∧
    Delta .WRITE .NEED_WRITE = .ok (.WRITE, .WaitForWrite) ∧
    Delta .WRITE .PROCEED = .ok (.PROCESS, .Process) ∧
    Delta .WRITE .TERMINATE = .ok (.CLOSING, .TryCloseConnection) ∧
    Delta .WRITE .WAKEUP = .ok (.WRITE, .TryWrite) ∧
    Delta .CLOSING .NEED_READ = .ok (.WRITE, .WaitForRead) ∧
    Delta .CLOSING .NEED_WRITE = .ok (.WRITE, .WaitForWrite) ∧
    Delta .CLOSING .TERMINATE = .ok (.CLOSING, .TryCloseConnection) ∧
    Delta .CLOSING .WAKEUP = .ok (.CLOSING, .TryCloseConnection) :=
  ⟨rfl, rfl, rfl, rfl, rfl, rfl, rfl, rfl, rfl, rfl, rfl, rfl, rfl, rfl, rfl,
   rfl, rfl, rfl, rfl, rfl, rfl⟩

/-- C5: For every (state, transition) combination not enumerated in the
§4.1 table, `Delta` never returns a result: it fails with the
`"Undefined transition!"` runtime error, and the `Accept` loop surfaces
that failure as a hard fatal halt (the error is not caught and not
converted into the recoverable `TERMINATE` path used for protocol
faults). -/
theorem delta_undefined_is_fatal (s : ConnState) (t : Transition)
    (hnot : (s, t) ∉ tablePairs) :
    Delta s t = .error "Undefined transition!" ∧
    (∀ (o : Oracle) (h : ConnectionHandle), h.currentState = s →
      t ≠ Transition.NONE →
      acceptStep o h t = .halt (.fatal h s t)) := by
  have hdelta : Delta s t = .error "Undefined transition!" := by
    cases s <;> cases t <;>
      first
        | rfl
        | exact absurd (by decide) hnot
  refine ⟨hdelta, ?_⟩
  intro o h hcs hne
  simp [acceptStep, hne, hcs, hdelta]

/-- C5 witness: `(CLOSING, PROCEED)` is not in the table; `Delta` fails on
it and `Accept` halts fatally there. -/
theorem delta_undefined_is_fatal_witness :
    Delta .CLOSING .PROCEED = .error "Undefined transition!" ∧
    acceptStep sampleOracle sampleClosingHandle .PROCEED =
      .halt (.fatal sampleClosingHandle .CLOSING .PROCEED) := by
  have h := delta_undefined_is_fatal .CLOSING .PROCEED (by decide)
  exact ⟨h.1, h.2 sampleOracle sampleClosingHandle rfl (by decide)⟩

/-- An invocation result whose handle (if any) has the same
`current_state_` as the given handle. -/
def preservesState (h : ConnectionHandle) : InvokeRes → Prop
  | .stuck => True
  | .npe h2 _ => h2.currentState = h.currentState
  | .ret _ h2 _ => h2.currentState = h.currentState

/-- No action method ever writes the state machine's `current_state_`:
only the `Accept` loop assigns it. -/
theorem invoke_preserves_currentState (a : Action) (h : ConnectionHandle)
    (o : Oracle) : preservesState h (invokeAction a h o) := by
  cases a <;>
    simp only [invokeAction, ConnectionHandle.tryRead, ConnectionHandle.tryWrite,
      ConnectionHandle.process, ConnectionHandle.getResult,
      ConnectionHandle.tryCloseConnection, ConnectionHandle.updateEventFlags,
      ConnectionHandle.stopReceivingNetworkEvent,
      ConnectionHandle.flushReadFeaturesBlock] <;>
    (repeat' split) <;>
    simp [preservesState]

/-- C2: If the action invoked by an `Accept` iteration raises a
`NetworkProcessException`, the loop catches it at the loop boundary and
continues (never propagating the fault to `Accept`'s caller) with the
substituted transition `TERMINATE`; and from every state, `TERMINATE` is
mapped by the table to `(CLOSING, TryCloseConnection)`, so the machine's
next step is exactly that. -/
theorem accept_catches_protocol_fault
    (o : Oracle) (h : ConnectionHandle) (t : Transition)
    (s : ConnState) (a : Action) (h2 : ConnectionHandle) (o2 : Oracle)
    (hdelta : Delta h.currentState t = .ok (s, a))
    (hfault : invokeAction a { h with currentState := s } o = .npe h2 o2) :
    acceptStep o h t = .cont o2 h2 Transition.TERMINATE ∧
    (∀ s2 : ConnState,
      Delta s2 .TERMINATE = .ok (.CLOSING, .TryCloseConnection)) := by
  have hne : t ≠ Transition.NONE := by
    intro ht; subst ht
    cases hcs : h.currentState <;> rw [hcs] at hdelta <;> cases hdelta
  constructor
  · simp [acceptStep, hne, hdelta, hfault]
  · intro s2; cases s2 <;> rfl

/-- Oracle whose single outcome makes `FillReadBuffer` raise a
`NetworkProcessException`. -/
def faultOracle : Oracle := { sampleOracle with fill := [ExtOutcome.npe] }

/-- C2 witness: in `READ`, a `WAKEUP` invokes `TryRead`; when the fill
raises, the loop continues with `TERMINATE`. -/
theorem accept_catches_protocol_fault_witness :
    acceptStep faultOracle sampleHandle .WAKEUP =
      .cont { faultOracle with fill := [] }
        { sampleHandle with currentState := ConnState.READ }
        Transition.TERMINATE :=
  (accept_catches_protocol_fault faultOracle sampleHandle .WAKEUP .READ
    .TryRead { sampleHandle with currentState := ConnState.READ }
    { faultOracle with fill := [] } rfl rfl).1

/-- C10: The `Accept` loop assigns `current_state_` the table's next
state before invoking the looked-up action: every continuing step leaves
the machine in the Delta destination state, and a step whose action
faults continues with `TERMINATE` from that destination state (so the
substituted `TERMINATE` is looked up from the destination of the
faulting step, and the state observed during the action's execution is
already the destination). -/
theorem state_assigned_before_action
    (o : Oracle) (h : ConnectionHandle) (t : Transition)
    (s : ConnState) (a : Action)
    (hdelta : Delta h.currentState t = .ok (s, a)) :
    (∀ o2 h2 t2, acceptStep o h t = .cont o2 h2 t2 → h2.currentState = s) ∧
    (∀ h2 o2, invokeAction a { h with currentState := s } o = .npe h2 o2 →
      acceptStep o h t = .cont o2 h2 Transition.TERMINATE ∧
      h2.currentState = s ∧
      Delta h2.currentState Transition.TERMINATE =
        Delta s Transition.TERMINATE) := by
  have hne : t ≠ Transition.NONE := by
    intro ht; subst ht
    cases hcs : h.currentState <;> rw [hcs] at hdelta <;> cases hdelta
  constructor
  · intro o2 h2 t2 hstep
    simp only [acceptStep, if_neg hne, hdelta] at hstep
    cases hinv : invokeAction a { h with currentState := s } o with
    | stuck => rw [hinv] at hstep; cases hstep
    | npe hx ox =>
      rw [hinv] at hstep
      cases hstep
      have hp := invoke_preserves_currentState a { h with currentState := s } o
      rw [hinv] at hp
      simpa [preservesState] using hp
    | ret tx hx ox =>
      rw [hinv] at hstep
      cases hstep
      have hp := invoke_preserves_currentState a { h with currentState := s } o
      rw [hinv] at hp
      simpa [preservesState] using hp
  · intro h2 o2 hfault
    have hcs : h2.currentState = s := by
      have hp := invoke_preserves_currentState a { h with currentState := s } o
      rw [hfault] at hp
      simpa [preservesState] using hp
    refine ⟨?_, hcs, by rw [hcs]⟩
    simp [acceptStep, hne, hdelta, hfault]

/-- Oracle whose single outcome makes the interpreter's `GetResult`
raise a `NetworkProcessException`. -/
def getResultFaultOracle : Oracle :=
  { sampleOracle with interpGetResult := [true] }

/-- The sample handle moved to `PROCESS`, for concrete evaluations. -/
def sampleProcessHandle : ConnectionHandle :=
  { sampleHandle with currentState := ConnState.PROCESS }

/-- The sample `PROCESS` handle after `GetResult` re-armed the network
event, for concrete evaluations. -/
def sampleProcessArmed : ConnectionHandle :=
  { sampleProcessHandle with
    currentState := ConnState.PROCESS
    networkArmed := true }

/-- C10 witness: in `PROCESS`, a `WAKEUP` invokes `GetResult`; the
destination state `PROCESS` is assigned before the faulting call, and
the substituted `TERMINATE` is looked up from it. -/
theorem state_assigned_before_action_witness :
    acceptStep getResultFaultOracle sampleProcessHandle .WAKEUP =
      .cont { getResultFaultOracle with interpGetResult := [] }
        sampleProcessArmed Transition.TERMINATE ∧
    sampleProcessArmed.currentState = ConnState.PROCESS ∧
    Delta sampleProcessArmed.currentState Transition.TERMINATE =
      Delta ConnState.PROCESS Transition.TERMINATE :=
  (state_assigned_before_action getResultFaultOracle sampleProcessHandle
    .WAKEUP .PROCESS .GetResult rfl).2
    sampleProcessArmed
    { getResultFaultOracle with interpGetResult := [] } rfl

/-- C7: `HandleEvent` maps a flag set containing the timeout flag to the
initial transition `TERMINATE` and any other flag set to `WAKEUP`, and
always then runs the `Accept` loop with that transition. -/
theorem handleEvent_flag_dispatch (h : ConnectionHandle) (o : Oracle)
    (fd flags : Nat) :
    (flags &&& EV_TIMEOUT ≠ 0 →
      h.handleEvent o fd flags = accept o h Transition.TERMINATE) ∧
    (flags &&& EV_TIMEOUT = 0 →
      h.handleEvent o fd flags = accept o h Transition.WAKEUP) := by
  refine ⟨fun hf => ?_, fun hf => ?_⟩ <;>
    simp [ConnectionHandle.handleEvent, hf]

/-- C7 witness: flag sets `EV_TIMEOUT` and `EV_READ` at concrete
arguments. -/
theorem handleEvent_flag_dispatch_witness :
    sampleHandle.handleEvent sampleOracle 5 EV_TIMEOUT =
      accept sampleOracle sampleHandle Transition.TERMINATE ∧
    sampleHandle.handleEvent sampleOracle 5 EV_READ =
      accept sampleOracle sampleHandle Transition.WAKEUP :=
  ⟨(handleEvent_flag_dispatch sampleHandle sampleOracle 5 EV_TIMEOUT).1
      (by decide),
   (handleEvent_flag_dispatch sampleHandle sampleOracle 5 EV_READ).2
      (by decide)⟩

/-- An invocation result that either consumed at least one oracle
outcome, or returned `NONE` with the oracle untouched. Every action's
invocation satisfies this: the `Wait*` helpers return `NONE` without an
external call, and every other action method starts with an external
call. -/
def consumesOrNone (o : Oracle) : InvokeRes → Prop
  | .stuck => True
  | .npe _ o2 => o2.size < o.size
  | .ret t _ o2 => o2.size < o.size ∨ (o2 = o ∧ t = Transition.NONE)

theorem invoke_consumesOrNone (a : Action) (h : ConnectionHandle)
    (o : Oracle) : consumesOrNone o (invokeAction a h o) := by
  cases a <;>
    simp only [invokeAction, ConnectionHandle.tryRead, ConnectionHandle.tryWrite,
      ConnectionHandle.process, ConnectionHandle.getResult,
      ConnectionHandle.tryCloseConnection, ConnectionHandle.updateEventFlags,
      ConnectionHandle.stopReceivingNetworkEvent,
      ConnectionHandle.flushReadFeaturesBlock] <;>
    (repeat' split) <;>
    simp_all [consumesOrNone, Oracle.size] <;>
    omega

/-- A halted `Accept` step carries `done`, `fatal` or `stuck` — never the
fuel marker. -/
theorem acceptStep_halt_shape (o : Oracle) (h : ConnectionHandle)
    (t : Transition) (r : RunRes) (hstep : acceptStep o h t = .halt r) :
    r ≠ RunRes.fuelOut := by
  unfold acceptStep at hstep
  split at hstep
  · cases hstep; simp
  · split at hstep
    · cases hstep; simp
    · rename_i s a heq
      cases hinv : invokeAction a { h with currentState := s } o <;>
        rw [hinv] at hstep <;> cases hstep
      simp

/-- A continuing `Accept` step either consumed an oracle outcome or will
halt at the next loop test (its pending transition is `NONE`). -/
theorem acceptStep_cont_size (o : Oracle) (h : ConnectionHandle)
    (t : Transition) (o2 : Oracle) (h2 : ConnectionHandle) (t2 : Transition)
    (hstep : acceptStep o h t = .cont o2 h2 t2) :
    o2.size < o.size ∨ (o2 = o ∧ t2 = Transition.NONE) := by
  unfold acceptStep at hstep
  split at hstep
  · cases hstep
  · split at hstep
    · cases hstep
    · rename_i s a heq
      have hc := invoke_consumesOrNone a { h with currentState := s } o
      cases hinv : invokeAction a { h with currentState := s } o with
      | stuck => rw [hinv] at hstep; cases hstep
      | npe hx ox =>
        rw [hinv] at hstep
        cases hstep
        rw [hinv] at hc
        exact Or.inl hc
      | ret tx hx ox =>
        rw [hinv] at hstep
        cases hstep
        rw [hinv] at hc
        exact hc

/-- The `Accept` loop halts within `Oracle.size + 2` iterations. -/
theorem acceptFuel_ne_fuelOut (n : Nat) :
    ∀ (o : Oracle) (h : ConnectionHandle) (t : Transition),
      o.size + 2 ≤ n → acceptFuel n o h t ≠ RunRes.fuelOut := by
  induction n with
  | zero => intro o h t hn; omega
  | succ m ih =>
    intro o h t hn
    simp only [acceptFuel]
    cases hstep : acceptStep o h t with
    | halt r => exact acceptStep_halt_shape o h t r hstep
    | cont o2 h2 t2 =>
      rcases acceptStep_cont_size o h t o2 h2 t2 hstep with hlt | ⟨rfl, rfl⟩
      · exact ih o2 h2 t2 (by omega)
      · cases m with
        | zero => omega
        | succ k => simp [acceptFuel, acceptStep]

/-- A fatal `Accept` step exhibits the undefined-transition error. -/
theorem acceptStep_fatal_undefined (o : Oracle) (h : ConnectionHandle)
    (t : Transition) (h2 : ConnectionHandle) (s2 : ConnState)
    (t2 : Transition) (hstep : acceptStep o h t = .halt (.fatal h2 s2 t2)) :
    Delta s2 t2 = .error "Undefined transition!" := by
  unfold acceptStep at hstep
  split at hstep
  · simp at hstep
  · split at hstep
    · rename_i e heq
      obtain ⟨rfl, rfl, rfl⟩ :
          h2 = h ∧ s2 = h.currentState ∧ t2 = t := by
        cases hstep; exact ⟨rfl, rfl, rfl⟩
      rw [heq, delta_error_msg _ _ _ heq]
    · rename_i s a heq2
      cases hinv : invokeAction a { h with currentState := s } o <;>
        rw [hinv] at hstep <;> cases hstep

/-- Every fatal halt of the `Accept` loop exhibits a (state, transition)
pair outside the table. -/
theorem acceptFuel_fatal_undefined (n : Nat) :
    ∀ (o : Oracle) (h : ConnectionHandle) (t : Transition)
      (h2 : ConnectionHandle) (s2 : ConnState) (t2 : Transition),
      acceptFuel n o h t = .fatal h2 s2 t2 →
      Delta s2 t2 = .error "Undefined transition!" := by
  induction n with
  | zero => intro o h t h2 s2 t2 heq; simp [acceptFuel] at heq
  | succ m ih =>
    intro o h t h2 s2 t2 heq
    simp only [acceptFuel] at heq
    cases hstep : acceptStep o h t with
    | halt r =>
      rw [hstep] at heq
      subst heq
      exact acceptStep_fatal_undefined o h t h2 s2 t2 hstep
    | cont o2 h2x t2x =>
      rw [hstep] at heq
      exact ih o2 h2x t2x h2 s2 t2 heq

/-- C3 counterexample: from state `READ` with initial transition
`NEED_RESULT` (a pair the table does not enumerate) the `Accept` loop
never reaches a `NONE` transition: the very first table lookup throws
the undefined-transition runtime error, which the loop does not catch. -/
theorem accept_not_always_reaching_none :
    accept sampleOracle sampleHandle Transition.NEED_RESULT =
      .fatal sampleHandle ConnState.READ Transition.NEED_RESULT := by
  decide

/-- C3 (amended): for every finite stock of external outcomes, from any
state and any initial transition, the `Accept` loop halts within
`Oracle.size + 2` table lookups and action invocations; it reaches a
`NONE` transition unless a looked-up (state, transition) pair lies
outside the table, in which case it halts at once with the fatal
undefined-transition error (every fatal halt exhibits such a pair). -/
theorem accept_terminates_bounded (o : Oracle) (h : ConnectionHandle)
    (t : Transition) :
    accept o h t ≠ RunRes.fuelOut ∧
    (∀ (h2 : ConnectionHandle) (s2 : ConnState) (t2 : Transition),
      accept o h t = .fatal h2 s2 t2 →
      Delta s2 t2 = .error "Undefined transition!") :=
  ⟨acceptFuel_ne_fuelOut (o.size + 2) o h t (Nat.le_refl _),
   fun h2 s2 t2 heq =>
     acceptFuel_fatal_undefined (o.size + 2) o h t h2 s2 t2 heq⟩

/-- C3 (amended) witness: a concrete fatal run exhibits its undefined
pair, and the bounded run is never out of fuel. -/
theorem accept_terminates_bounded_witness :
    accept sampleOracle sampleClosingHandle Transition.PROCEED ≠
      RunRes.fuelOut ∧
    Delta ConnState.CLOSING Transition.PROCEED =
      .error "Undefined transition!" :=
  ⟨(accept_terminates_bounded sampleOracle sampleClosingHandle
      Transition.PROCEED).1,
   (accept_terminates_bounded sampleOracle sampleClosingHandle
      Transition.PROCEED).2 sampleClosingHandle ConnState.CLOSING
      Transition.PROCEED (by decide)⟩

/-- C9: `TryWrite` returns `PROCEED`, touching neither the handle nor
any I/O oracle, whenever `ShouldFlush()` answers false; otherwise it
calls `FlushAllWrites()` exactly once and returns exactly its
transition; and the returned transition is the same whether or not the
instrumentation hook is enabled. -/
theorem tryWrite_flush_contract (h : ConnectionHandle) (o : Oracle) :
    (∀ rest, o.shouldFlush = false :: rest →
      h.tryWrite o =
        .ret Transition.PROCEED h { o with shouldFlush := rest }) ∧
    (∀ rest tw rest2, o.shouldFlush = true :: rest →
      o.flushAll = ExtOutcome.ret tw :: rest2 →
      InvokeRes.transitionOf (h.tryWrite o) = some tw ∧
      InvokeRes.oracleOf (h.tryWrite o) =
        some { o with shouldFlush := rest, flushAll := rest2 }) ∧
    InvokeRes.transitionOf (h.tryWrite { o with metricsOn := true }) =
      InvokeRes.transitionOf (h.tryWrite { o with metricsOn := false }) := by
  refine ⟨?_, ?_, ?_⟩
  · intro rest hsf
    simp [ConnectionHandle.tryWrite, hsf]
  · intro rest tw rest2 hsf hfa
    by_cases hm : o.metricsOn <;>
      simp [ConnectionHandle.tryWrite, hsf, hfa, hm,
        InvokeRes.transitionOf, InvokeRes.oracleOf]
  · simp only [ConnectionHandle.tryWrite]
    rcases hsf : o.shouldFlush with _ | ⟨b, rest⟩
    · simp [InvokeRes.transitionOf]
    · cases b
      · simp [InvokeRes.transitionOf]
      · rcases hfa : o.flushAll with _ | ⟨x, rest2⟩
        · simp [InvokeRes.transitionOf]
        · cases x <;> simp [InvokeRes.transitionOf]

/-- Oracle answering that nothing is due to be flushed. -/
def flushOracleA : Oracle := { sampleOracle with shouldFlush := [false] }

/-- Oracle whose flush is due and whose `FlushAllWrites` answers
`NEED_WRITE`. -/
def flushOracleB : Oracle :=
  { sampleOracle with
    shouldFlush := [true]
    flushAll := [ExtOutcome.ret Transition.NEED_WRITE] }

/-- C9 witness: both branches at concrete oracles. -/
theorem tryWrite_flush_contract_witness :
    sampleHandle.tryWrite flushOracleA =
      .ret Transition.PROCEED sampleHandle
        { flushOracleA with shouldFlush := [] } ∧
    InvokeRes.transitionOf (sampleHandle.tryWrite flushOracleB) =
      some Transition.NEED_WRITE :=
  ⟨(tryWrite_flush_contract sampleHandle flushOracleA).1 [] rfl,
   ((tryWrite_flush_contract sampleHandle flushOracleB).2.1 []
      Transition.NEED_WRITE [] rfl rfl).1⟩

/-- C8: When `Close()` reports that closing would block (any transition
other than `PROCEED`), `TryCloseConnection` returns that blocking
transition with the handle — in particular both reactor registrations —
unchanged; only when `Close()` succeeds does it unregister the network
and work-pool events and return `NONE`. -/
theorem tryClose_blocking_frame (h : ConnectionHandle) (o : Oracle)
    (rest : List Bool) (c : Transition) (rest2 : List ExtOutcome)
    (htd : o.interpTeardown = false :: rest)
    (hcl : o.closeTransport = ExtOutcome.ret c :: rest2) :
    (c ≠ Transition.PROCEED →
      h.tryCloseConnection o = .ret c h
        { o with interpTeardown := rest, closeTransport := rest2 }) ∧
    (c = Transition.PROCEED →
      h.tryCloseConnection o = .ret Transition.NONE
        { h with
          task := (h.task.unregisterEvent h.networkEvent).unregisterEvent
            h.workpoolEvent }
        { o with interpTeardown := rest, closeTransport := rest2 }) := by
  constructor <;> intro hc <;>
    simp [ConnectionHandle.tryCloseConnection, htd, hcl, hc]

/-- A reactor registry owning events 1 and 2, for concrete evaluations. -/
def registeredReactor : Reactor := { owned := [1, 2], freed := [] }

/-- A `CLOSING` handle holding live registrations 1 (network) and 2
(work pool), for concrete evaluations. -/
def registeredHandle : ConnectionHandle :=
  { sampleClosingHandle with
    task := registeredReactor
    networkEvent := some 1
    workpoolEvent := some 2 }

/-- Oracle whose teardown succeeds and whose `Close()` would block. -/
def closeBlockOracle : Oracle :=
  { sampleOracle with
    interpTeardown := [false]
    closeTransport := [ExtOutcome.ret Transition.NEED_WRITE] }

/-- Oracle whose teardown and `Close()` both succeed. -/
def closeOkOracle : Oracle :=
  { sampleOracle with
    interpTeardown := [false]
    closeTransport := [ExtOutcome.ret Transition.PROCEED] }

/-- C8 witness: blocking close returns `NEED_WRITE` and keeps both
registrations; successful close unregisters both and returns `NONE`. -/
theorem tryClose_blocking_frame_witness :
    registeredHandle.tryCloseConnection closeBlockOracle =
      .ret Transition.NEED_WRITE registeredHandle
        { closeBlockOracle with interpTeardown := [], closeTransport := [] } ∧
    registeredHandle.tryCloseConnection closeOkOracle =
      .ret Transition.NONE
        { registeredHandle with
          task := (registeredHandle.task.unregisterEvent
            registeredHandle.networkEvent).unregisterEvent
            registeredHandle.workpoolEvent }
        { closeOkOracle with interpTeardown := [], closeTransport := [] } :=
  ⟨(tryClose_blocking_frame registeredHandle closeBlockOracle []
      Transition.NEED_WRITE [] rfl rfl).1 (by decide),
   (tryClose_blocking_frame registeredHandle closeOkOracle []
      Transition.PROCEED [] rfl rfl).2 rfl⟩

/-- Unregistering an event leaves an event absent if it was absent. -/
theorem unregister_preserves_not_mem (r : Reactor) (e : Option Nat)
    (x : Nat) (hx : x ∉ r.owned) : x ∉ (r.unregisterEvent e).owned := by
  cases e with
  | none => exact hx
  | some a =>
    simp only [Reactor.unregisterEvent]
    split
    · intro hmem; exact hx (List.mem_of_mem_erase hmem)
    · exact hx

/-- Unregistering preserves the no-duplicates invariant of the registry. -/
theorem unregister_preserves_nodup (r : Reactor) (e : Option Nat)
    (hd : r.owned.Nodup) : (r.unregisterEvent e).owned.Nodup := by
  cases e with
  | none => exact hd
  | some a =>
    simp only [Reactor.unregisterEvent]
    split
    · exact hd.erase a
    · exact hd

/-- After unregistering an event, it is no longer owned. -/
theorem unregister_not_mem_self (r : Reactor) (a : Nat)
    (hd : r.owned.Nodup) : a ∉ (r.unregisterEvent (some a)).owned := by
  simp only [Reactor.unregisterEvent]
  split
  · exact hd.not_mem_erase
  · assumption

/-- Unregistering an event that is not owned changes nothing. -/
theorem unregister_noop (r : Reactor) (a : Nat) (ha : a ∉ r.owned) :
    r.unregisterEvent (some a) = r := by
  simp [Reactor.unregisterEvent, ha]

/-- C4: `TryCloseConnection` is idempotent. After a first invocation has
successfully closed the transport and unregistered both reactor event
registrations, a second invocation (e.g. from a stray `WAKEUP` in
`CLOSING`) completes without fault, returns `NONE`, and leaves the
handle — in particular the registry's `freed` history — completely
unchanged: nothing is unregistered or freed a second time. -/
theorem tryClose_second_invocation_noop
    (h : ConnectionHandle) (o o2 : Oracle) (ne we : Nat)
    (r1 r3 : List Bool) (r2 r4 : List ExtOutcome)
    (hne : h.networkEvent = some ne) (hwe : h.workpoolEvent = some we)
    (hnodup : h.task.owned.Nodup)
    (htd1 : o.interpTeardown = false :: r1)
    (hcl1 : o.closeTransport = ExtOutcome.ret Transition.PROCEED :: r2)
    (htd2 : o2.interpTeardown = false :: r3)
    (hcl2 : o2.closeTransport = ExtOutcome.ret Transition.PROCEED :: r4) :
    h.tryCloseConnection o = .ret Transition.NONE
      { h with
        task := (h.task.unregisterEvent h.networkEvent).unregisterEvent
          h.workpoolEvent }
      { o with interpTeardown := r1, closeTransport := r2 } ∧
    ConnectionHandle.tryCloseConnection
      { h with
        task := (h.task.unregisterEvent h.networkEvent).unregisterEvent
          h.workpoolEvent } o2 =
      .ret Transition.NONE
        { h with
          task := (h.task.unregisterEvent h.networkEvent).unregisterEvent
            h.workpoolEvent }
        { o2 with interpTeardown := r3, closeTransport := r4 } := by
  have hfirst := (tryClose_blocking_frame h o r1 Transition.PROCEED r2
    htd1 hcl1).2 rfl
  refine ⟨hfirst, ?_⟩
  have hne2 : ne ∉
      ((h.task.unregisterEvent (some ne)).unregisterEvent (some we)).owned :=
    unregister_preserves_not_mem _ _ _
      (unregister_not_mem_self h.task ne hnodup)
  have hwe2 : we ∉
      ((h.task.unregisterEvent (some ne)).unregisterEvent (some we)).owned :=
    unregister_not_mem_self _ we
      (unregister_preserves_nodup h.task _ hnodup)
  simp only [ConnectionHandle.tryCloseConnection, htd2, hcl2]
  simp [hne, hwe, unregister_noop _ _ hne2, unregister_noop _ _ hwe2]

/-- C4 witness: closing a live handle and then closing again is faultless
and leaves the registry exactly as after the first close. -/
theorem tryClose_second_invocation_noop_witness :
    registeredHandle.tryCloseConnection closeOkOracle = .ret Transition.NONE
      { registeredHandle with
        task := (registeredHandle.task.unregisterEvent
          registeredHandle.networkEvent).unregisterEvent
          registeredHandle.workpoolEvent }
      { closeOkOracle with interpTeardown := [], closeTransport := [] } ∧
    ConnectionHandle.tryCloseConnection
      { registeredHandle with
        task := (registeredHandle.task.unregisterEvent
          registeredHandle.networkEvent).unregisterEvent
          registeredHandle.workpoolEvent } closeOkOracle =
      .ret Transition.NONE
        { registeredHandle with
          task := (registeredHandle.task.unregisterEvent
            registeredHandle.networkEvent).unregisterEvent
            registeredHandle.workpoolEvent }
        { closeOkOracle with interpTeardown := [], closeTransport := [] } :=
  tryClose_second_invocation_noop registeredHandle closeOkOracle closeOkOracle
    1 2 [] [] [] [] rfl rfl (by decide) rfl rfl rfl rfl

/-- Which outcome an invocation produces — stuck, raised, or which
transition with which remaining oracle — never depends on the handle:
the action methods draw every branching decision from the external
collaborators. -/
theorem invoke_sig_congr (a : Action) (h1 h2 : ConnectionHandle)
    (o : Oracle) : (invokeAction a h1 o).sig = (invokeAction a h2 o).sig := by
  cases a <;>
    simp only [invokeAction, ConnectionHandle.tryRead, ConnectionHandle.tryWrite,
      ConnectionHandle.process, ConnectionHandle.getResult,
      ConnectionHandle.tryCloseConnection, ConnectionHandle.updateEventFlags,
      ConnectionHandle.stopReceivingNetworkEvent,
      ConnectionHandle.flushReadFeaturesBlock] <;>
    (repeat' split) <;>
    simp_all [InvokeRes.sig]

/-- The sequence of states the `Accept` loop passes through depends only
on the machine's current state and the external outcomes, never on the
rest of the handle. -/
theorem traceFuel_depends_only_on_state (n : Nat) :
    ∀ (o : Oracle) (h1 h2 : ConnectionHandle),
      h1.currentState = h2.currentState →
      ∀ t, traceFuel n o h1 t = traceFuel n o h2 t := by
  induction n with
  | zero => intro o h1 h2 hcs t; rfl
  | succ m ih =>
    intro o h1 h2 hcs t
    simp only [traceFuel]
    by_cases ht : t = Transition.NONE
    · simp [ht]
    · simp only [if_neg ht]
      rw [hcs]
      cases hd : Delta h2.currentState t with
      | error e => rfl
      | ok p =>
        obtain ⟨s, a⟩ := p
        dsimp only
        have hsig := invoke_sig_congr a { h1 with currentState := s }
          { h2 with currentState := s } o
        have p1 := invoke_preserves_currentState a
          { h1 with currentState := s } o
        have p2 := invoke_preserves_currentState a
          { h2 with currentState := s } o
        cases h1i : invokeAction a { h1 with currentState := s } o with
        | stuck =>
          cases h2i : invokeAction a { h2 with currentState := s } o with
          | stuck => rfl
          | npe hy oy => rw [h1i, h2i] at hsig; simp [InvokeRes.sig] at hsig
          | ret ty hy oy => rw [h1i, h2i] at hsig; simp [InvokeRes.sig] at hsig
        | npe hx ox =>
          cases h2i : invokeAction a { h2 with currentState := s } o with
          | stuck => rw [h1i, h2i] at hsig; simp [InvokeRes.sig] at hsig
          | npe hy oy =>
            rw [h1i, h2i] at hsig
            simp only [InvokeRes.sig, Option.some.injEq, Prod.mk.injEq,
              true_and] at hsig
            rw [h1i] at p1
            rw [h2i] at p2
            simp only [preservesState] at p1 p2
            subst hsig
            have hxy : hx.currentState = hy.currentState := by
              rw [p1, p2]
            dsimp only
            rw [ih ox hx hy hxy]
          | ret ty hy oy => rw [h1i, h2i] at hsig; simp [InvokeRes.sig] at hsig
        | ret tx hx ox =>
          cases h2i : invokeAction a { h2 with currentState := s } o with
          | stuck => rw [h1i, h2i] at hsig; simp [InvokeRes.sig] at hsig
          | npe hy oy => rw [h1i, h2i] at hsig; simp [InvokeRes.sig] at hsig
          | ret ty hy oy =>
            rw [h1i, h2i] at hsig
            simp only [InvokeRes.sig, Option.some.injEq, Prod.mk.injEq] at hsig
            obtain ⟨hty, hoy⟩ := hsig
            rw [h1i] at p1
            rw [h2i] at p2
            simp only [preservesState] at p1 p2
            have hxy : hx.currentState = hy.currentState := by
              rw [p1, p2]
            cases hty
            subst hoy
            dsimp only
            rw [ih ox hx hy hxy]

/-- C6: `ResetForReuse` leaves the handle equivalent to a freshly
constructed one except for connection identity: the state machine is
back in `READ` (as in a fresh handle), the protocol interpreter is the
supplied one, the same `NetworkIoWrapper` object is restarted — not
replaced, unlike a fresh handle which wraps a new one — the context is
cleared and carries the new connection id, and under identical stimulus
the reused handle passes through exactly the same state sequence as a
freshly constructed one. -/
theorem resetForReuse_fresh_equivalent
    (h : ConnectionHandle) (cid : Nat) (task : Reactor) (interpId : Nat)
    (sockFd freshIo : Nat) (task2 : Reactor) :
    (h.resetForReuse cid task interpId).currentState = ConnState.READ ∧
    (ConnectionHandle.construct sockFd freshIo task2 interpId).currentState =
      ConnState.READ ∧
    (h.resetForReuse cid task interpId).interpreterId = interpId ∧
    (h.resetForReuse cid task interpId).ioWrapper.objectId =
      h.ioWrapper.objectId ∧
    (h.resetForReuse cid task interpId).ioWrapper.restarts =
      h.ioWrapper.restarts + 1 ∧
    (ConnectionHandle.construct sockFd freshIo task2 interpId).ioWrapper =
      { objectId := freshIo, sockFd := sockFd, restarts := 0 } ∧
    (h.resetForReuse cid task interpId).context =
      { ConnectionContext.cleared with connectionId := cid } ∧
    (h.resetForReuse cid task interpId).context.readFeatures =
      (ConnectionHandle.construct sockFd freshIo task2 interpId).context.readFeatures ∧
    (h.resetForReuse cid task interpId).context.writeFeatures =
      (ConnectionHandle.construct sockFd freshIo task2 interpId).context.writeFeatures ∧
    ∀ (n : Nat) (o : Oracle) (t : Transition),
      traceFuel n o (h.resetForReuse cid task interpId) t =
        traceFuel n o (ConnectionHandle.construct sockFd freshIo task2 interpId) t :=
  ⟨rfl, rfl, rfl, rfl, rfl, rfl, rfl, rfl, rfl,
   fun n o t => traceFuel_depends_only_on_state n o
     (h.resetForReuse cid task interpId)
     (ConnectionHandle.construct sockFd freshIo task2 interpId) rfl t⟩

end Terrier
